import Mathlib

/-!
Shallow embedding of the Zamboa school-records backend
(`server/routes.ts`, `server/storage.ts`, `shared/schema.ts`, bundled in
the repository as one file).  Database tables become Lean lists, the
drizzle storage layer becomes pure functions on a `Store`, and each route
handler the claims touch becomes a pure function from a store and a
request body to a result and an updated store.  JavaScript numbers that
flow through `parseFloat` / `Number` are modelled as `Option ℚ`, with
`none` standing for `NaN`.
-/

namespace Zamboa

/-! ### Data model (shared/schema.ts) -/

/-- Row of the `users` table (admin accounts). -/
structure AdminUser where
  id : String
  username : String
  password : String
  firstName : String
  lastName : String
  role : String
deriving DecidableEq

/-- Row of the `students` table.  `sectionId` is the one nullable column. -/
structure Student where
  id : String
  studentId : String
  firstName : String
  lastName : String
  middleName : String
  suffix : String
  course : String
  yearLevel : String
  email : String
  contactNumber : String
  address : String
  dateOfBirth : String
  gender : String
  status : String
  sectionId : Option String
  password : String
  role : String
deriving DecidableEq

/-- Row of the `sections` table. -/
structure Section where
  id : String
  name : String
  course : String
  yearLevel : String
  schoolYear : String
  description : String
deriving DecidableEq

/-- Row of the `grades` table.  The `grade` column is text (the raw client
string); `units` is numeric (the handler stores `Number(body.units) || 3`,
which we model over `ℚ`). -/
structure Grade where
  id : String
  studentId : String
  subjectCode : String
  subjectName : String
  instructor : String
  grade : String
  units : ℚ
  semester : String
  remarks : String
deriving DecidableEq

/-- Row of the `sessions` table; `expiresAt` is epoch milliseconds. -/
structure Session where
  token : String
  userId : String
  role : String
  expiresAt : Nat
deriving DecidableEq

/-- The whole relational store. -/
structure Store where
  users : List AdminUser
  students : List Student
  sections : List Section
  grades : List Grade
  sessions : List Session
deriving DecidableEq

/-! ### Models of JavaScript primitives -/

/-- JS truthiness of a possibly-absent string field: `undefined` and the
empty string are falsy, every other string truthy. -/
def truthy : Option String → Bool
  | none => false
  | some s => !(s == "")

/-- JS `x || d` for a possibly-absent string field. -/
def orDefault (o : Option String) (d : String) : String :=
  match o with
  | some s => if s == "" then d else s
  | none => d

/-- Digits to a natural number, most significant first. -/
def digitsToNat (l : List Char) : Nat :=
  l.foldl (fun a c => a * 10 + (c.toNat - '0'.toNat)) 0

/-- Is the first list a prefix of the second? (JS `String.startsWith`). -/
def startsWithChars : List Char → List Char → Bool
  | [], _ => true
  | _ :: _, [] => false
  | a :: as, b :: bs => a == b && startsWithChars as bs

/-- JS `String.split(" ")`: split at every single space. -/
def splitSpace : List Char → List (List Char)
  | [] => [[]]
  | c :: rest =>
    if c == ' ' then [] :: splitSpace rest
    else
      match splitSpace rest with
      | [] => [[c]]
      | p :: ps => (c :: p) :: ps

/-- JS `String.trim`, over the space characters this code base uses. -/
def trimChars (cs : List Char) : List Char :=
  ((cs.dropWhile (fun c => c == ' ')).reverse.dropWhile (fun c => c == ' ')).reverse

/-- Model of JS `parseFloat` on decimal literals: skip leading spaces,
optional sign, digits, optional point, digits; `none` models `NaN` (no
digit consumed).  Exponents and hex are not used by this code base. -/
def parseFloatQ (s : String) : Option ℚ :=
  let cs := s.toList.dropWhile (fun c => c == ' ')
  let sign : ℚ := match cs with
    | '-' :: _ => -1
    | _ => 1
  let cs := match cs with
    | '-' :: rest => rest
    | '+' :: rest => rest
    | _ => cs
  let intPart := cs.takeWhile Char.isDigit
  let rest := cs.drop intPart.length
  let fracPart := match rest with
    | '.' :: r => r.takeWhile Char.isDigit
    | _ => []
  if intPart.isEmpty && fracPart.isEmpty then none
  else some (sign * ((digitsToNat intPart : ℚ) + (digitsToNat fracPart : ℚ) / (10 ^ fracPart.length)))

/-- Strict decimal parse of a whole string (sign, digits, point, digits,
nothing else); used by the `Number` model. -/
def parseDecFull (cs : List Char) : Option ℚ :=
  let sign : ℚ := match cs with
    | '-' :: _ => -1
    | _ => 1
  let cs := match cs with
    | '-' :: rest => rest
    | '+' :: rest => rest
    | _ => cs
  let intPart := cs.takeWhile Char.isDigit
  let rest := cs.drop intPart.length
  let fracPart := match rest with
    | '.' :: r => r.takeWhile Char.isDigit
    | _ => []
  let rest2 := match rest with
    | '.' :: r => r.drop fracPart.length
    | _ => rest
  if intPart.isEmpty && fracPart.isEmpty then none
  else if !rest2.isEmpty then none
  else some (sign * ((digitsToNat intPart : ℚ) + (digitsToNat fracPart : ℚ) / (10 ^ fracPart.length)))

/-- Model of JS `Number` on a possibly-absent string field:
`Number(undefined) = NaN` (`none`), a blank string is `0`, otherwise the
whole trimmed string must be a decimal literal or the result is `NaN`. -/
def NumberQ : Option String → Option ℚ
  | none => none
  | some s =>
    let t := trimChars s.toList
    if t.isEmpty then some 0
    else parseDecFull t

/-- JS `x.toFixed(2)` followed by `parseFloat`, over exact rationals:
round to 2 decimal places, ties toward the larger value (the ECMA
`toFixed` tie rule). -/
def round2 (q : ℚ) : ℚ :=
  ((⌊q * 100 + 1 / 2⌋ : ℤ) : ℚ) / 100

/-- Model of the external bcrypt primitive: hashing is an injective
tagging of the password, used only through `bcryptCompare`. -/
def bcryptHash (p : String) : String := "$2b$10$" ++ p

/-- Model of `bcrypt.compare`: succeeds exactly when the stored hash was
produced from the candidate password. -/
def bcryptCompare (p hash : String) : Bool := hash == bcryptHash p

/-! ### Storage layer (server/storage.ts, class `DatabaseStorage`) -/

/-- `getAdminByUsername`: first `users` row with the given username. -/
def getAdminByUsername (st : Store) (u : String) : Option AdminUser :=
  st.users.find? (fun a => a.username == u)

/-- `getAdminById`. -/
def getAdminById (st : Store) (id : String) : Option AdminUser :=
  st.users.find? (fun a => a.id == id)

/-- `getStudentById`. -/
def getStudentById (st : Store) (id : String) : Option Student :=
  st.students.find? (fun s => s.id == id)

/-- `getStudentByStudentId`. -/
def getStudentByStudentId (st : Store) (sid : String) : Option Student :=
  st.students.find? (fun s => s.studentId == sid)

/-- `getSectionById`. -/
def getSectionById (st : Store) (id : String) : Option Section :=
  st.sections.find? (fun s => s.id == id)

/-- `getGradeById`. -/
def getGradeById (st : Store) (id : String) : Option Grade :=
  st.grades.find? (fun g => g.id == id)

/-- `getAllGrades(studentId)`: grades filtered by student id. -/
def getGradesOf (st : Store) (sid : String) : List Grade :=
  st.grades.filter (fun g => g.studentId == sid)

/-- `createSession`. -/
def createSessionS (st : Store) (token userId role : String) (expiresAt : Nat) : Store :=
  { st with sessions := st.sessions ++ [{ token := token, userId := userId, role := role, expiresAt := expiresAt }] }

/-- Raw `storage.getSession`: plain lookup by token, no expiry logic. -/
def storGetSession (st : Store) (token : String) : Option Session :=
  st.sessions.find? (fun s => s.token == token)

/-- `deleteSession`: idempotent removal by token. -/
def deleteSessionS (st : Store) (token : String) : Store :=
  { st with sessions := st.sessions.filter (fun s => !(s.token == token)) }

/-- `createStudent` (row already carries its generated id). -/
def createStudentS (st : Store) (s : Student) : Store :=
  { st with students := st.students ++ [s] }

/-- Partial update for a student row.  A `none` field is an `undefined`
value in the drizzle `set` call, which drizzle omits from the SQL UPDATE,
so the stored value is kept.  `sectionId` is doubly optional: the outer
`Option` is presence in the SET clause, the inner one nullability. -/
structure StudentUpdate where
  firstName : Option String := none
  lastName : Option String := none
  middleName : Option String := none
  suffix : Option String := none
  course : Option String := none
  yearLevel : Option String := none
  email : Option String := none
  contactNumber : Option String := none
  address : Option String := none
  dateOfBirth : Option String := none
  gender : Option String := none
  status : Option String := none
  sectionId : Option (Option String) := none
  studentId : Option String := none
  password : Option String := none
deriving DecidableEq

/-- Apply a partial update to one student row (drizzle UPDATE ... SET). -/
def applyStudentUpdate (s : Student) (u : StudentUpdate) : Student :=
  { s with
    firstName := u.firstName.getD s.firstName
    lastName := u.lastName.getD s.lastName
    middleName := u.middleName.getD s.middleName
    suffix := u.suffix.getD s.suffix
    course := u.course.getD s.course
    yearLevel := u.yearLevel.getD s.yearLevel
    email := u.email.getD s.email
    contactNumber := u.contactNumber.getD s.contactNumber
    address := u.address.getD s.address
    dateOfBirth := u.dateOfBirth.getD s.dateOfBirth
    gender := u.gender.getD s.gender
    status := u.status.getD s.status
    sectionId := u.sectionId.getD s.sectionId
    studentId := u.studentId.getD s.studentId
    password := u.password.getD s.password }

/-- `updateStudent`: UPDATE ... WHERE id = ... RETURNING.  Ids are unique,
so the returned row is the updated first match. -/
def updateStudentS (st : Store) (id : String) (u : StudentUpdate) : Option Student × Store :=
  let st' : Store := { st with students := st.students.map (fun s => if s.id == id then applyStudentUpdate s u else s) }
  match st.students.find? (fun s => s.id == id) with
  | none => (none, st')
  | some s0 => (some (applyStudentUpdate s0 u), st')

/-- `createSection`: the `sections.name` column is UNIQUE in the schema,
so the database rejects a duplicate name; the error is modelled as
`Except.error`. -/
def createSectionS (st : Store) (sec : Section) : Except Unit (Section × Store) :=
  if st.sections.any (fun x => x.name == sec.name) then .error ()
  else .ok (sec, { st with sections := st.sections ++ [sec] })

/-- `deleteSection`: first null out `sectionId` on every student pointing
at the id (this runs whether or not the section exists), then delete the
section row; returns whether a row was deleted. -/
def deleteSectionS (st : Store) (id : String) : Bool × Store :=
  let students' := st.students.map (fun s => if s.sectionId == some id then { s with sectionId := none } else s)
  let found := st.sections.any (fun sec => sec.id == id)
  (found, { st with students := students', sections := st.sections.filter (fun sec => !(sec.id == id)) })

/-- `createGrade`. -/
def createGradeS (st : Store) (g : Grade) : Store :=
  { st with grades := st.grades ++ [g] }

/-- Partial update for a grade row; `none` = `undefined` = omitted from
the drizzle SET clause. -/
structure GradeUpdate where
  subjectCode : Option String := none
  subjectName : Option String := none
  instructor : Option String := none
  grade : Option String := none
  units : Option ℚ := none
  semester : Option String := none
  remarks : Option String := none
deriving DecidableEq

/-- Apply a partial update to one grade row. -/
def applyGradeUpdate (g : Grade) (u : GradeUpdate) : Grade :=
  { g with
    subjectCode := u.subjectCode.getD g.subjectCode
    subjectName := u.subjectName.getD g.subjectName
    instructor := u.instructor.getD g.instructor
    grade := u.grade.getD g.grade
    units := u.units.getD g.units
    semester := u.semester.getD g.semester
    remarks := u.remarks.getD g.remarks }

/-- `updateGrade`: UPDATE ... WHERE id = ... RETURNING. -/
def updateGradeS (st : Store) (id : String) (u : GradeUpdate) : Option Grade × Store :=
  let st' : Store := { st with grades := st.grades.map (fun g => if g.id == id then applyGradeUpdate g u else g) }
  match st.grades.find? (fun g => g.id == id) with
  | none => (none, st')
  | some g0 => (some (applyGradeUpdate g0 u), st')

/-- Partial update for an admin row (only username / password are ever
set, by the account endpoint). -/
def updateAdminS (st : Store) (id : String) (uUp pUp : Option String) : Option AdminUser × Store :=
  let st' : Store := { st with users := st.users.map (fun a => if a.id == id then { a with username := uUp.getD a.username, password := pUp.getD a.password } else a) }
  match st.users.find? (fun a => a.id == id) with
  | none => (none, st')
  | some a0 => (some { a0 with username := uUp.getD a0.username, password := pUp.getD a0.password }, st')

/-! ### Serialization of user records

The handlers serialize rows object-spread style; responses are modelled as
association lists of field name to possibly-null string value, so that
presence or absence of a `password` key is observable. -/

/-- Full serialization of an admin row, as `res.json({ user: admin })`
emits it — password included. -/
def adminFields (a : AdminUser) : List (String × Option String) :=
  [("id", some a.id), ("username", some a.username), ("password", some a.password),
   ("firstName", some a.firstName), ("lastName", some a.lastName), ("role", some a.role)]

/-- `const \x7b password: _pw, ...adminData \x7d = admin`: every field but
the password. -/
def adminFieldsSansPw (a : AdminUser) : List (String × Option String) :=
  [("id", some a.id), ("username", some a.username),
   ("firstName", some a.firstName), ("lastName", some a.lastName), ("role", some a.role)]

/-- `const \x7b password: _pw, ...studentData \x7d = student`. -/
def studentFieldsSansPw (s : Student) : List (String × Option String) :=
  [("id", some s.id), ("studentId", some s.studentId), ("firstName", some s.firstName),
   ("lastName", some s.lastName), ("middleName", some s.middleName), ("suffix", some s.suffix),
   ("course", some s.course), ("yearLevel", some s.yearLevel), ("email", some s.email),
   ("contactNumber", some s.contactNumber), ("address", some s.address),
   ("dateOfBirth", some s.dateOfBirth), ("gender", some s.gender), ("status", some s.status),
   ("sectionId", s.sectionId), ("role", some s.role)]

/-! ### Session resolution and authorization gate (server/routes.ts) -/

/-- Session TTL: 24 hours in milliseconds. -/
def TOKEN_TTL_MS : Nat := 24 * 60 * 60 * 1000

/-- `extractToken`: bearer token from the Authorization header. -/
def extractToken (authHeader : Option String) : Option String :=
  match authHeader with
  | none => none
  | some h =>
    if startsWithChars "Bearer ".toList h.toList then
      some (String.mk (((splitSpace h.toList).get? 1).getD []))
    else none

/-- `getSession(req)`: resolve the bearer token to a session, with lazy
expiry — an expired record is deleted as a side effect of the read. -/
def getSessionR (st : Store) (authHeader : Option String) (now : Nat) : Option Session × Store :=
  match extractToken authHeader with
  | none => (none, st)
  | some tok =>
    match storGetSession st tok with
    | none => (none, st)
    | some s =>
      if s.expiresAt < now then (none, deleteSessionS st tok)
      else (some s, st)

/-- `requireAdminToken`: `some 401` unauthenticated, `some 403` wrong
role, `none` = proceed. -/
def requireAdminGate (st : Store) (authHeader : Option String) (now : Nat) : Option Nat × Store :=
  match getSessionR st authHeader now with
  | (none, st') => (some 401, st')
  | (some s, st') => if s.role == "admin" then (none, st') else (some 403, st')

/-! ### POST /api/auth/login -/

/-- Login request body. The body carries only credentials; there is no
role field a client could set. -/
structure LoginBody where
  username : Option String
  password : Option String
deriving DecidableEq

/-- Login outcome: 400, 401 or 200 with token, role and sanitized user. -/
inductive LoginResult
  | badRequest
  | invalid
  | ok (token role : String) (user : List (String × Option String))
deriving DecidableEq

/-- The role carried by a successful login response, if any. -/
def roleOf : LoginResult → Option String
  | .ok _ r _ => some r
  | _ => none

/-- The `POST /api/auth/login` handler.  The admin table is probed first
by username; on bcrypt failure or no admin row, the student table is
probed by studentId.  `tok` is the freshly generated session token and
`now` the current epoch-millisecond clock. -/
def login (st : Store) (b : LoginBody) (tok : String) (now : Nat) : LoginResult × Store :=
  if !(truthy b.username) || !(truthy b.password) then (.badRequest, st)
  else
    let u := b.username.getD ""
    let p := b.password.getD ""
    let studentBranch : LoginResult × Store :=
      match getStudentByStudentId st u with
      | some s =>
        if bcryptCompare p s.password then
          (.ok tok "student" (studentFieldsSansPw s), createSessionS st tok s.id "student" (now + TOKEN_TTL_MS))
        else (.invalid, st)
      | none => (.invalid, st)
    match getAdminByUsername st u with
    | some a =>
      if bcryptCompare p a.password then
        (.ok tok "admin" (adminFieldsSansPw a), createSessionS st tok a.id "admin" (now + TOKEN_TTL_MS))
      else studentBranch
    | none => studentBranch

/-- Does some admin row match these credentials? (mirrors the admin probe
of the login handler). -/
def adminMatches (st : Store) (u p : String) : Bool :=
  match getAdminByUsername st u with
  | some a => bcryptCompare p a.password
  | none => false

/-- Does some student row match these credentials? -/
def studentMatches (st : Store) (u p : String) : Bool :=
  match getStudentByStudentId st u with
  | some s => bcryptCompare p s.password
  | none => false

/-! ### Student CRUD handlers -/

/-- Body of `POST /api/admin/students`.  `sectionId` is stored as
`body.sectionId || null`. -/
structure StudentBody where
  studentId : Option String := none
  firstName : Option String := none
  lastName : Option String := none
  middleName : Option String := none
  suffix : Option String := none
  course : Option String := none
  yearLevel : Option String := none
  email : Option String := none
  contactNumber : Option String := none
  address : Option String := none
  dateOfBirth : Option String := none
  gender : Option String := none
  status : Option String := none
  sectionId : Option String := none
  password : Option String := none
deriving DecidableEq

/-- Outcome of `POST /api/admin/students`. -/
inductive CreateStudentResult
  | badRequest
  | conflict
  | created (user : List (String × Option String))
deriving DecidableEq

/-- HTTP status of a student-create outcome. -/
def createStudentStatus : CreateStudentResult → Nat
  | .badRequest => 400
  | .conflict => 409
  | .created _ => 201

/-- The `POST /api/admin/students` handler: required-field check, 409 on
duplicate studentId, defaulted fields, bcrypt-hashed password. -/
def createStudentHandler (st : Store) (b : StudentBody) (newId : String) : CreateStudentResult × Store :=
  if !(truthy b.studentId) || !(truthy b.firstName) || !(truthy b.lastName) || !(truthy b.course) then
    (.badRequest, st)
  else
    match getStudentByStudentId st (b.studentId.getD "") with
    | some _ => (.conflict, st)
    | none =>
      let rawPassword := orDefault b.password "student123"
      let s : Student := {
        id := newId
        studentId := b.studentId.getD ""
        firstName := b.firstName.getD ""
        lastName := b.lastName.getD ""
        middleName := b.middleName.getD ""
        suffix := b.suffix.getD ""
        course := b.course.getD ""
        yearLevel := orDefault b.yearLevel "1st Year"
        email := b.email.getD ""
        contactNumber := b.contactNumber.getD ""
        address := b.address.getD ""
        dateOfBirth := b.dateOfBirth.getD ""
        gender := b.gender.getD ""
        status := orDefault b.status "Regular"
        sectionId := if truthy b.sectionId then some (b.sectionId.getD "") else none
        password := bcryptHash rawPassword
        role := "student" }
      (.created (studentFieldsSansPw s), createStudentS st s)

/-- Body of `PUT /api/admin/students/:id`.  `sectionId` distinguishes an
absent key (outer `none`) from an explicit JSON null (`some none`). -/
structure StudentPutBody where
  firstName : Option String := none
  lastName : Option String := none
  middleName : Option String := none
  suffix : Option String := none
  course : Option String := none
  yearLevel : Option String := none
  email : Option String := none
  contactNumber : Option String := none
  address : Option String := none
  dateOfBirth : Option String := none
  gender : Option String := none
  status : Option String := none
  sectionId : Option (Option String) := none
  password : Option String := none
deriving DecidableEq

/-- Outcome of `PUT /api/admin/students/:id`. -/
inductive UpdateStudentResult
  | notFound
  | updated (user : List (String × Option String))
deriving DecidableEq

/-- The update record the `PUT /api/admin/students/:id` handler passes to
the store: every field forwarded as-is (absent fields stay `undefined`
and are skipped by drizzle), except `sectionId`, which is always present
(`body.sectionId ?? null`), and `password`, set only when truthy. -/
def studentUpdateOf (b : StudentPutBody) : StudentUpdate :=
  { firstName := b.firstName
    lastName := b.lastName
    middleName := b.middleName
    suffix := b.suffix
    course := b.course
    yearLevel := b.yearLevel
    email := b.email
    contactNumber := b.contactNumber
    address := b.address
    dateOfBirth := b.dateOfBirth
    gender := b.gender
    status := b.status
    sectionId := some (b.sectionId.getD none)
    studentId := none
    password := if truthy b.password then some (bcryptHash (b.password.getD "")) else none }

/-- The `PUT /api/admin/students/:id` handler. -/
def updateStudentHandler (st : Store) (id : String) (b : StudentPutBody) : UpdateStudentResult × Store :=
  match updateStudentS st id (studentUpdateOf b) with
  | (none, st') => (.notFound, st')
  | (some s, st') => (.updated (studentFieldsSansPw s), st')

/-! ### Section handlers -/

/-- Body of `POST /api/admin/sections`. -/
structure SectionBody where
  name : Option String := none
  course : Option String := none
  yearLevel : Option String := none
  schoolYear : Option String := none
  description : Option String := none
deriving DecidableEq

/-- Outcome of `POST /api/admin/sections`.  The handler has no duplicate
check; a violated UNIQUE constraint escapes the handler and surfaces as an
internal error. -/
inductive CreateSectionResult
  | badRequest
  | created (sec : Section)
  | serverError
deriving DecidableEq

/-- HTTP status of a section-create outcome. -/
def createSectionStatus : CreateSectionResult → Nat
  | .badRequest => 400
  | .created _ => 201
  | .serverError => 500

/-- The `POST /api/admin/sections` handler. -/
def createSectionHandler (st : Store) (b : SectionBody) (newId : String) : CreateSectionResult × Store :=
  if !(truthy b.name) then (.badRequest, st)
  else
    match createSectionS st {
      id := newId
      name := b.name.getD ""
      course := b.course.getD ""
      yearLevel := b.yearLevel.getD ""
      schoolYear := b.schoolYear.getD ""
      description := b.description.getD "" } with
    | .error _ => (.serverError, st)
    | .ok (sec, st') => (.created sec, st')

/-- The `DELETE /api/admin/sections/:id` handler: 200 on deletion, 404
otherwise; the store returned by `deleteSection` is kept either way. -/
def deleteSectionHandler (st : Store) (id : String) : Nat × Store :=
  match deleteSectionS st id with
  | (true, st') => (200, st')
  | (false, st') => (404, st')

/-! ### Grade handlers -/

/-- Body of the grade endpoints.  A `remarks` field is included to make
visible that the handlers never read it. -/
structure GradeBody where
  studentId : Option String := none
  subjectCode : Option String := none
  subjectName : Option String := none
  instructor : Option String := none
  grade : Option String := none
  units : Option String := none
  semester : Option String := none
  remarks : Option String := none
deriving DecidableEq

/-- `parseFloat(gradeStr) <= 3 ? "Passed" : "Failed"`; a `NaN` comparison
is false, so an unparseable grade yields "Failed". -/
def deriveRemarks (gradeStr : String) : String :=
  match parseFloatQ gradeStr with
  | some q => if q ≤ 3 then "Passed" else "Failed"
  | none => "Failed"

/-- `Number(body.units) || 3`: `NaN` and `0` are falsy and fall back to 3. -/
def unitsOf (units : Option String) : ℚ :=
  match NumberQ units with
  | none => 3
  | some v => if v = 0 then 3 else v

/-- Outcome of `POST /api/admin/grades`. -/
inductive CreateGradeResult
  | badRequest
  | created (g : Grade)
deriving DecidableEq

/-- HTTP status of a grade-create outcome. -/
def createGradeStatus : CreateGradeResult → Nat
  | .badRequest => 400
  | .created _ => 201

/-- The row `POST /api/admin/grades` builds from the request body: raw
grade string stored as-is, units and semester defaulted, `remarks`
derived server-side from the grade value only. -/
def gradeOfBody (b : GradeBody) (newId : String) : Grade :=
  { id := newId
    studentId := b.studentId.getD ""
    subjectCode := b.subjectCode.getD ""
    subjectName := b.subjectName.getD ""
    instructor := b.instructor.getD ""
    grade := b.grade.getD ""
    units := unitsOf b.units
    semester := orDefault b.semester "1st Semester 2024-2025"
    remarks := deriveRemarks (b.grade.getD "") }

/-- The `POST /api/admin/grades` handler: requires truthy studentId,
subjectCode and grade; otherwise inserts `gradeOfBody`.  No range or
parse validation is performed on the grade value. -/
def createGradeHandler (st : Store) (b : GradeBody) (newId : String) : CreateGradeResult × Store :=
  if !(truthy b.studentId) || !(truthy b.subjectCode) || !(truthy b.grade) then (.badRequest, st)
  else (.created (gradeOfBody b newId), createGradeS st (gradeOfBody b newId))

/-- Outcome of `PUT /api/admin/grades/:id`. -/
inductive UpdateGradeResult
  | notFound
  | updated (g : Grade)
deriving DecidableEq

/-- The update record `PUT /api/admin/grades/:id` passes to the store:
fields forwarded as-is, `units` only when the key is present
(`body.units !== undefined ? Number(body.units) : undefined`; a
non-numeric value would be `NaN`, which the integer column rejects, so
only numeric results are modelled), `remarks` re-derived exactly when a
truthy grade is supplied. -/
def gradeUpdateOf (b : GradeBody) : GradeUpdate :=
  { subjectCode := b.subjectCode
    subjectName := b.subjectName
    instructor := b.instructor
    grade := b.grade
    units := b.units.bind (fun s => NumberQ (some s))
    semester := b.semester
    remarks := if truthy b.grade then some (deriveRemarks (b.grade.getD "")) else none }

/-- The `PUT /api/admin/grades/:id` handler. -/
def updateGradeHandler (st : Store) (id : String) (b : GradeBody) : UpdateGradeResult × Store :=
  match updateGradeS st id (gradeUpdateOf b) with
  | (none, st') => (.notFound, st')
  | (some g, st') => (.updated g, st')

/-! ### PUT /api/admin/account -/

/-- Body of `PUT /api/admin/account`. -/
structure AdminAccountBody where
  currentPassword : Option String := none
  newUsername : Option String := none
  newPassword : Option String := none
deriving DecidableEq

/-- Outcome of `PUT /api/admin/account`.  `noChanges` carries the user
object the handler serializes — the raw admin row, password included. -/
inductive AdminAccountResult
  | unauthorized
  | notFound
  | badRequest (msg : String)
  | noChanges (user : List (String × Option String))
  | updated (user : List (String × Option String))
  | serverError
deriving DecidableEq

/-- HTTP status of an account-update outcome. -/
def adminAccountStatus : AdminAccountResult → Nat
  | .unauthorized => 401
  | .notFound => 404
  | .badRequest _ => 400
  | .noChanges _ => 200
  | .updated _ => 200
  | .serverError => 500

/-- Tail of the account handler after the username conflict check:
validate the new password, then apply the collected updates; with no
updates, answer `\x7b message, user: admin \x7d` — the unsanitized row. -/
def adminAccountFinish (st : Store) (admin : AdminUser) (uUp : Option String) (b : AdminAccountBody) : AdminAccountResult × Store :=
  let pUp : Option String :=
    if truthy b.newPassword then some (bcryptHash (b.newPassword.getD "")) else none
  if truthy b.newPassword && decide ((b.newPassword.getD "").length < 8) then
    (.badRequest "New password must be at least 8 characters", st)
  else
    match uUp, pUp with
    | none, none => (.noChanges (adminFields admin), st)
    | _, _ =>
      match updateAdminS st admin.id uUp pUp with
      | (none, st') => (.serverError, st')
      | (some u, st') => (.updated (adminFieldsSansPw u), st')

/-- The `PUT /api/admin/account` handler: raw session lookup (no expiry
check here — the admin gate ran before), admin lookup, current-password
check, optional username change (400 when taken), optional password
change. -/
def adminAccountHandler (st : Store) (authHeader : Option String) (b : AdminAccountBody) : AdminAccountResult × Store :=
  let sess : Option Session :=
    match extractToken authHeader with
    | none => none
    | some t => storGetSession st t
  match sess with
  | none => (.unauthorized, st)
  | some session =>
    match getAdminById st session.userId with
    | none => (.notFound, st)
    | some admin =>
      if !(truthy b.currentPassword) then (.badRequest "Current password is required", st)
      else if !(bcryptCompare (b.currentPassword.getD "") admin.password) then
        (.badRequest "Incorrect current password", st)
      else
        if truthy b.newUsername && !((b.newUsername.getD "") == admin.username) then
          match getAdminByUsername st (b.newUsername.getD "") with
          | some _ => (.badRequest "Username already taken", st)
          | none => adminAccountFinish st admin (some (b.newUsername.getD "")) b
        else adminAccountFinish st admin none b

/-! ### GET /api/student/stats -/

/-- `reduce((acc, g) => acc + parseFloat(g.grade) * g.units, 0)` with
`NaN` propagation: `none` models `NaN`. -/
def weightedSum (gs : List Grade) : Option ℚ :=
  gs.foldl (fun acc g => acc.bind (fun a => (parseFloatQ g.grade).map (fun v => a + v * g.units))) (some 0)

/-- The same sum when every grade parses (used to state the theorem). -/
def pureWeightedSum (gs : List Grade) : ℚ :=
  gs.foldl (fun a g => a + (parseFloatQ g.grade).getD 0 * g.units) 0

/-- Insertion-order deduplication, as `[...new Set(xs)]` produces. -/
def dedupFirst (l : List String) : List String :=
  l.foldl (fun acc s => if acc.contains s then acc else acc ++ [s]) []

/-- Response of `GET /api/student/stats`.  `gwa` is `Option ℚ` because a
stored unparseable grade makes the JS computation `NaN`. -/
structure Stats where
  totalSubjects : Nat
  totalUnits : ℚ
  gwa : Option ℚ
  semesters : List String
  currentSemester : String
deriving DecidableEq

/-- The `GET /api/student/stats` handler, for the student whose row id is
`uid` (the session's userId): totals over that student's grades, with the
weighted average guarded against a zero divisor and rounded to two
decimal places. -/
def studentStats (st : Store) (uid : String) : Stats :=
  let gs := getGradesOf st uid
  let totalUnits := gs.foldl (fun acc g => acc + g.units) 0
  let gwa : Option ℚ :=
    if 0 < totalUnits then (weightedSum gs).map (fun x => x / totalUnits) else some 0
  let sems := dedupFirst (gs.map (fun g => g.semester))
  { totalSubjects := gs.length
    totalUnits := totalUnits
    gwa := gwa.map round2
    semesters := sems
    currentSemester := (sems.get? 0).getD "1st Semester 2024-2025" }

/-! ### Concrete instances used to exercise the handlers -/

/-- The empty store. -/
def emptyStore : Store :=
  { users := [], students := [], sections := [], grades := [], sessions := [] }

/-- The seeded admin account (`upsertAdmin` at startup). -/
def seedAdmin : AdminUser :=
  { id := "a1", username := "admin", password := bcryptHash "admin123",
    firstName := "System", lastName := "Administrator", role := "admin" }

/-- A second admin account, for username-conflict scenarios. -/
def otherAdmin : AdminUser :=
  { id := "a2", username := "bob", password := bcryptHash "bobpass99",
    firstName := "Bob", lastName := "Lee", role := "admin" }

/-- A sample student row. -/
def sampleStudent : Student :=
  { id := "s1", studentId := "2024-001", firstName := "Ana", lastName := "Cruz",
    middleName := "", suffix := "", course := "BSIT", yearLevel := "1st Year",
    email := "", contactNumber := "", address := "", dateOfBirth := "", gender := "",
    status := "Regular", sectionId := some "X", password := bcryptHash "student123",
    role := "student" }

/-- Store with one admin and one student, for login scenarios. -/
def loginStore : Store :=
  { users := [seedAdmin], students := [sampleStudent], sections := [], grades := [], sessions := [] }

/-- A session for the seeded admin that expires at t = 50 ms. -/
def shortSession : Session :=
  { token := "tk", userId := "a1", role := "admin", expiresAt := 50 }

/-- Store holding only `shortSession`. -/
def sessionStore : Store :=
  { users := [], students := [], sections := [], grades := [], sessions := [shortSession] }

/-- Store for the admin-account scenarios: both admins, a live session for
the seeded one. -/
def accountStore : Store :=
  { users := [seedAdmin, otherAdmin], students := [], sections := [], grades := [],
    sessions := [{ token := "tok1", userId := "a1", role := "admin", expiresAt := 1000 }] }

/-- Account body requesting no changes (current password only). -/
def noChangeBody : AdminAccountBody :=
  { currentPassword := some "admin123", newUsername := none, newPassword := none }

/-- Account body asking to take the other admin's username. -/
def takenNameBody : AdminAccountBody :=
  { currentPassword := some "admin123", newUsername := some "bob", newPassword := none }

/-- The spec's GWA example: grades (1.25, 3 units) and (1.50, 3 units). -/
def gwaStore : Store :=
  { users := [], students := [], sections := [],
    grades :=
      [{ id := "g1", studentId := "u1", subjectCode := "MATH1", subjectName := "",
         instructor := "", grade := "1.25", units := 3,
         semester := "1st Semester 2024-2025", remarks := "Passed" },
       { id := "g2", studentId := "u1", subjectCode := "ENG1", subjectName := "",
         instructor := "", grade := "1.50", units := 3,
         semester := "1st Semester 2024-2025", remarks := "Passed" }],
    sessions := [] }

/-- Grade body with grade 3.00, a client-supplied remarks value, and no
units field. -/
def passBody : GradeBody :=
  { studentId := some "s1", subjectCode := some "CS101", grade := some "3.00",
    remarks := some "Tampered" }

/-- Grade body with the out-of-range grade 9.99. -/
def outOfRangeBody : GradeBody :=
  { studentId := some "s1", subjectCode := some "CS101", grade := some "9.99" }

/-- A sample section row with id "X". -/
def sampleSection : Section :=
  { id := "X", name := "BSIT-1A", course := "BSIT", yearLevel := "1st Year",
    schoolYear := "2024-2025", description := "" }

/-- Store with one section and one student assigned to it. -/
def sectionStore : Store :=
  { users := [], students := [sampleStudent], sections := [sampleSection],
    grades := [], sessions := [] }

/-- Store where a student dangles on section id "X" that has no row. -/
def danglingStore : Store :=
  { users := [], students := [sampleStudent], sections := [], grades := [], sessions := [] }

/-- Update body carrying only a first name (everything else absent). -/
def nameOnlyBody : StudentPutBody :=
  { firstName := some "Maria" }

/-- Student-create body whose studentId collides with `sampleStudent`. -/
def dupStudentBody : StudentBody :=
  { studentId := some "2024-001", firstName := some "Juan", lastName := some "Reyes",
    course := some "BSIT" }

/-- Section-create body whose name collides with `sampleSection`. -/
def dupSectionBody : SectionBody :=
  { name := some "BSIT-1A" }

/-- Grade body with an in-between grade and no units key. -/
def rangeFreeBody : GradeBody :=
  { studentId := some "s1", subjectCode := some "HIST1", grade := some "4.75" }

/-- Grade body sending units "0". -/
def zeroUnitsBody : GradeBody :=
  { studentId := some "s1", subjectCode := some "CS1", grade := some "2.00",
    units := some "0" }

/-- Grade body sending units "5". -/
def fiveUnitsBody : GradeBody :=
  { studentId := some "s1", subjectCode := some "CS2", grade := some "2.00",
    units := some "5" }

/-! ### Helper lemmas -/

/-- Mapping a function that fixes every element of a list is the
identity. -/
theorem map_eq_self_of_fixes {α : Type} (l : List α) (f : α → α) (h : ∀ x ∈ l, f x = x) :
    l.map f = l := by
  induction l with
  | nil => rfl
  | cons a t ih =>
    simp only [List.map_cons]
    rw [h a (by simp), ih (fun x hx => h x (by simp [hx]))]

/-- A left fold accumulating `+ f g` is the starting value plus the sum
of the mapped list. -/
theorem foldl_add_map {α : Type} (f : α → ℚ) (l : List α) (a : ℚ) :
    l.foldl (fun acc g => acc + f g) a = a + (l.map f).sum := by
  induction l generalizing a with
  | nil => simp
  | cons g t ih => simp [ih, add_assoc]

/-- When every grade in the list parses, the NaN-propagating weighted sum
agrees with the pure one. -/
theorem weightedSum_eq_pure (l : List Grade)
    (h : ∀ g ∈ l, (parseFloatQ g.grade).isSome = true) :
    weightedSum l = some (pureWeightedSum l) := by
  have aux : ∀ (l : List Grade), (∀ g ∈ l, (parseFloatQ g.grade).isSome = true) → ∀ (a : ℚ),
      l.foldl (fun acc g => acc.bind (fun x => (parseFloatQ g.grade).map (fun v => x + v * g.units))) (some a)
        = some (l.foldl (fun x g => x + (parseFloatQ g.grade).getD 0 * g.units) a) := by
    intro l
    induction l with
    | nil => intro _ a; rfl
    | cons g t ih =>
      intro hall a
      obtain ⟨v, hv⟩ := Option.isSome_iff_exists.mp (hall g (by simp))
      have hstep : (some a).bind (fun x => (parseFloatQ g.grade).map (fun w => x + w * g.units))
          = some (a + (parseFloatQ g.grade).getD 0 * g.units) := by
        rw [hv]; rfl
      simp only [List.foldl_cons]
      rw [hstep]
      exact ih (fun g' hg' => hall g' (by simp [hg'])) _
  exact aux l h 0

/-! ### Claim theorems -/

/-- C1: for every login request with username and password present, the
role of a successful response is determined solely by which table the
credentials match — "admin" exactly when the admin table (checked first,
by username) matches, "student" exactly when it does not and the student
table (by studentId) does; the body carries no role field, so the client
cannot influence it; when neither table matches, the response is 401
(`LoginResult.invalid`). -/
theorem login_role_from_matching_table (st : Store) (b : LoginBody) (tok : String) (now : Nat)
    (hu : truthy b.username = true) (hp : truthy b.password = true) :
    roleOf (login st b tok now).1 =
      (if adminMatches st (b.username.getD "") (b.password.getD "") then some "admin"
       else if studentMatches st (b.username.getD "") (b.password.getD "") then some "student"
       else none)
    ∧ (adminMatches st (b.username.getD "") (b.password.getD "") = false →
       studentMatches st (b.username.getD "") (b.password.getD "") = false →
       (login st b tok now).1 = .invalid) := by
  unfold login adminMatches studentMatches
  rw [hu, hp]
  simp only [Bool.not_true, Bool.or_self, Bool.false_or, if_false, ite_false]
  cases hA : getAdminByUsername st (b.username.getD "") with
  | some a =>
    cases hC : bcryptCompare (b.password.getD "") a.password with
    | true => simp_all [roleOf]
    | false =>
      cases hS : getStudentByStudentId st (b.username.getD "") with
      | some s =>
        cases hC2 : bcryptCompare (b.password.getD "") s.password with
        | true => simp_all [roleOf]
        | false => simp_all [roleOf]
      | none => simp_all [roleOf]
  | none =>
    cases hS : getStudentByStudentId st (b.username.getD "") with
    | some s =>
      cases hC2 : bcryptCompare (b.password.getD "") s.password with
      | true => simp_all [roleOf]
      | false => simp_all [roleOf]
    | none => simp_all [roleOf]

/-- Witness for C1: on the concrete store, admin credentials get role
"admin", student credentials role "student", unknown credentials 401. -/
theorem login_role_witness :
    roleOf (login loginStore { username := some "admin", password := some "admin123" } "t1" 0).1 = some "admin"
    ∧ roleOf (login loginStore { username := some "2024-001", password := some "student123" } "t2" 0).1 = some "student"
    ∧ (login loginStore { username := some "ghost", password := some "x" } "t3" 0).1 = .invalid := by
  have h1 := login_role_from_matching_table loginStore { username := some "admin", password := some "admin123" } "t1" 0 (by decide) (by decide)
  have h2 := login_role_from_matching_table loginStore { username := some "2024-001", password := some "student123" } "t2" 0 (by decide) (by decide)
  have h3 := login_role_from_matching_table loginStore { username := some "ghost", password := some "x" } "t3" 0 (by decide) (by decide)
  refine ⟨?_, ?_, ?_⟩
  · rw [h1.1]; decide
  · rw [h2.1]; decide
  · exact h3.2 (by decide) (by decide)

/-- C2: a bearer token whose stored session has `expiresAt < now`
resolves to `none`, the record is deleted from the store by the read, and
the admin gate answers 401; a token with no stored session resolves to
`none` without touching the store. -/
theorem session_lazy_expiry (st : Store) (ah : Option String) (now : Nat) (t : String)
    (ht : extractToken ah = some t) :
    (∀ s, storGetSession st t = some s → s.expiresAt < now →
      getSessionR st ah now = (none, deleteSessionS st t)
      ∧ (∀ s' ∈ (deleteSessionS st t).sessions, s'.token ≠ t)
      ∧ (requireAdminGate st ah now).1 = some 401)
    ∧ (storGetSession st t = none → getSessionR st ah now = (none, st)) := by
  constructor
  · intro s hs hexp
    have hg : getSessionR st ah now = (none, deleteSessionS st t) := by
      simp only [getSessionR, ht, hs, if_pos hexp]
    refine ⟨hg, ?_, ?_⟩
    · intro s' hs'
      simp only [deleteSessionS, List.mem_filter] at hs'
      simpa using hs'.2
    · unfold requireAdminGate
      rw [hg]
  · intro hnone
    simp only [getSessionR, ht, hnone]

/-- Witness for C2: the session expiring at 50 ms is rejected and removed
at t = 100 ms, the gate answers 401; an unknown token leaves the store
alone. -/
theorem session_lazy_expiry_witness :
    shortSession.expiresAt < 100
    ∧ getSessionR sessionStore (some "Bearer tk") 100 = (none, deleteSessionS sessionStore "tk")
    ∧ (requireAdminGate sessionStore (some "Bearer tk") 100).1 = some 401
    ∧ getSessionR sessionStore (some "Bearer nosuch") 100 = (none, sessionStore) := by
  have h1 := session_lazy_expiry sessionStore (some "Bearer tk") 100 "tk" (by decide)
  have h2 := session_lazy_expiry sessionStore (some "Bearer nosuch") 100 "nosuch" (by decide)
  refine ⟨by decide, ?_, ?_, ?_⟩
  · exact (h1.1 shortSession (by decide) (by decide)).1
  · exact (h1.1 shortSession (by decide) (by decide)).2.2
  · exact h2.2 (by decide)

/-- C3: the "No changes requested" branch of `PUT /api/admin/account`
serializes the raw admin row, so that account-update response carries a
`password` field — the code contradicts the password-stripping the same
handler (and every other user-returning handler) performs. -/
theorem adminAccount_noChanges_has_password :
    (adminAccountHandler accountStore (some "Bearer tok1") noChangeBody).1 = .noChanges (adminFields seedAdmin)
    ∧ ("password", some (bcryptHash "admin123")) ∈ adminFields seedAdmin
    ∧ ("password", some (bcryptHash "admin123")) ∉ adminFieldsSansPw seedAdmin := by
  refine ⟨by decide, by decide, by decide⟩

/-- C4: `GET /api/student/stats` reports `totalUnits` as the sum of the
units over the student's grades, `gwa = 0` when the student has no
grades, and otherwise `gwa` as the units-weighted average of the parsed
grade values, rounded to two decimal places.  The hypothesis restricts to
students all of whose stored grade strings parse (an unparseable one
would make the JS value `NaN`). -/
theorem studentStats_gwa (st : Store) (uid : String)
    (h : ∀ g ∈ getGradesOf st uid, (parseFloatQ g.grade).isSome = true) :
    (studentStats st uid).totalUnits = ((getGradesOf st uid).map (fun g => g.units)).sum
    ∧ (getGradesOf st uid = [] → (studentStats st uid).gwa = some 0)
    ∧ (0 < ((getGradesOf st uid).map (fun g => g.units)).sum →
        (studentStats st uid).gwa =
          some (round2 (((getGradesOf st uid).map (fun g => (parseFloatQ g.grade).getD 0 * g.units)).sum
            / ((getGradesOf st uid).map (fun g => g.units)).sum))) := by
  have htu : (getGradesOf st uid).foldl (fun acc g => acc + g.units) 0
      = ((getGradesOf st uid).map (fun g => g.units)).sum := by
    rw [foldl_add_map]; exact zero_add _
  have hpw : pureWeightedSum (getGradesOf st uid)
      = ((getGradesOf st uid).map (fun g => (parseFloatQ g.grade).getD 0 * g.units)).sum := by
    unfold pureWeightedSum; rw [foldl_add_map]; exact zero_add _
  refine ⟨?_, ?_, ?_⟩
  · simp only [studentStats]; exact htu
  · intro hnil
    simp [studentStats, hnil]
    norm_num [round2]
  · intro hpos
    simp only [studentStats]
    rw [htu, if_pos hpos, weightedSum_eq_pure _ h, hpw]
    rfl

/-- Witness for C4: grades (1.25, 3u) and (1.50, 3u) give totalUnits 6
and gwa 1.38; a student without grades gets gwa 0. -/
theorem studentStats_gwa_witness :
    (studentStats gwaStore "u1").totalUnits = 6
    ∧ (studentStats gwaStore "u1").gwa = some (138/100)
    ∧ (studentStats gwaStore "nobody").gwa = some 0 := by
  have h := studentStats_gwa gwaStore "u1" (by decide)
  have h0 := studentStats_gwa gwaStore "nobody" (by decide)
  refine ⟨?_, ?_, ?_⟩
  · rw [h.1]
    simp +decide [getGradesOf, gwaStore]
    norm_num
  · have hpos : 0 < ((getGradesOf gwaStore "u1").map (fun g => g.units)).sum := by
      simp +decide [getGradesOf, gwaStore]
    rw [h.2.2 hpos]
    congr 1
    simp +decide [getGradesOf, gwaStore, parseFloatQ, digitsToNat]
    norm_num [round2]
  · exact h0.2.1 (by decide)

/-- C5: on both grade create and grade update with a grade value
supplied, the stored `remarks` is derived server-side from the grade
value alone — "Passed" exactly when the parsed value is at most 3 —
and the handlers are insensitive to any client-supplied `remarks`. -/
theorem grade_remarks_server_derived (st : Store) (b : GradeBody) (gid : String) :
    ((gradeOfBody b gid).remarks = deriveRemarks (b.grade.getD ""))
    ∧ (∀ q, parseFloatQ (b.grade.getD "") = some q →
        (gradeOfBody b gid).remarks = if q ≤ 3 then "Passed" else "Failed")
    ∧ (truthy b.studentId = true → truthy b.subjectCode = true → truthy b.grade = true →
        (createGradeHandler st b gid).1 = .created (gradeOfBody b gid))
    ∧ (∀ r, createGradeHandler st { b with remarks := r } gid = createGradeHandler st b gid)
    ∧ (∀ id g0, getGradeById st id = some g0 → truthy b.grade = true →
        (updateGradeHandler st id b).1 = .updated (applyGradeUpdate g0 (gradeUpdateOf b))
        ∧ (applyGradeUpdate g0 (gradeUpdateOf b)).remarks = deriveRemarks (b.grade.getD ""))
    ∧ (∀ r id, updateGradeHandler st id { b with remarks := r } = updateGradeHandler st id b) := by
  refine ⟨rfl, ?_, ?_, ?_, ?_, ?_⟩
  · intro q hq
    simp [gradeOfBody, deriveRemarks, hq]
  · intro h1 h2 h3
    simp [createGradeHandler, h1, h2, h3]
  · intro r
    cases b
    rfl
  · intro id g0 hg0 htg
    simp only [getGradeById] at hg0
    constructor
    · simp only [updateGradeHandler, updateGradeS, hg0]
    · simp [applyGradeUpdate, gradeUpdateOf, htg]
  · intro r id
    cases b
    rfl

/-- Witness for C5: grade "3.00" stores remarks "Passed" even though the
client sent remarks "Tampered"; replacing the client remarks changes
nothing; "3.25" derives to "Failed". -/
theorem grade_remarks_witness :
    (gradeOfBody passBody "g1").remarks = "Passed"
    ∧ (createGradeHandler emptyStore passBody "g1").1 = .created (gradeOfBody passBody "g1")
    ∧ (createGradeHandler emptyStore { passBody with remarks := some "Other" } "g1"
        = createGradeHandler emptyStore passBody "g1")
    ∧ deriveRemarks "3.25" = "Failed" := by
  have h := grade_remarks_server_derived emptyStore passBody "g1"
  refine ⟨?_, h.2.2.1 (by decide) (by decide) (by decide), h.2.2.2.1 (some "Other"), ?_⟩
  · rw [h.1]
    simp +decide [passBody, deriveRemarks, parseFloatQ, digitsToNat]
  · simp +decide [deriveRemarks, parseFloatQ, digitsToNat]

/-- Counterexample to C6 as stated: with a student dangling on the
missing section id "X" (reachable, because student writes never validate
`sectionId`), `DELETE /api/admin/sections/X` answers 404 yet still nulls
the student's `sectionId` — the store is not left unchanged. -/
theorem deleteSection_missing_id_mutates_student :
    (deleteSectionHandler danglingStore "X").1 = 404
    ∧ ((deleteSectionHandler danglingStore "X").2).students = [{ sampleStudent with sectionId := none }]
    ∧ (deleteSectionHandler danglingStore "X").2 ≠ danglingStore := by
  refine ⟨by decide, by decide, by decide⟩

/-- C6 (amended): deleting an existing section answers 200, removes
exactly that section row, nulls `sectionId` on every student that carried
it, and deletes no student; deleting a missing id answers 404 and leaves
the section rows unchanged, but the student null-out still runs — the
store is unchanged only when no student carries the missing id. -/
theorem deleteSection_behavior (st : Store) (id : String) :
    ((∃ sec ∈ st.sections, sec.id = id) → (deleteSectionHandler st id).1 = 200)
    ∧ ((deleteSectionHandler st id).2).sections = st.sections.filter (fun sec => !(sec.id == id))
    ∧ ((deleteSectionHandler st id).2).students
        = st.students.map (fun s => if s.sectionId == some id then { s with sectionId := none } else s)
    ∧ ((deleteSectionHandler st id).2).students.length = st.students.length
    ∧ (∀ s ∈ ((deleteSectionHandler st id).2).students, s.sectionId ≠ some id)
    ∧ ((¬ ∃ sec ∈ st.sections, sec.id = id) →
        (deleteSectionHandler st id).1 = 404 ∧ ((deleteSectionHandler st id).2).sections = st.sections)
    ∧ ((∀ s ∈ st.students, s.sectionId ≠ some id) → ((deleteSectionHandler st id).2).students = st.students) := by
  have hsnd : (deleteSectionHandler st id).2 = { st with
      students := st.students.map (fun s => if s.sectionId == some id then { s with sectionId := none } else s),
      sections := st.sections.filter (fun sec => !(sec.id == id)) } := by
    unfold deleteSectionHandler deleteSectionS
    cases h : st.sections.any (fun sec => sec.id == id) <;> simp [h]
  have hfst : (deleteSectionHandler st id).1
      = (if st.sections.any (fun sec => sec.id == id) then 200 else 404) := by
    unfold deleteSectionHandler deleteSectionS
    cases h : st.sections.any (fun sec => sec.id == id) <;> simp [h]
  refine ⟨?_, ?_, ?_, ?_, ?_, ?_, ?_⟩
  · intro hex
    rw [hfst, if_pos]
    simp only [List.any_eq_true, beq_iff_eq]
    obtain ⟨sec, hm, he⟩ := hex
    exact ⟨sec, hm, he⟩
  · rw [hsnd]
  · rw [hsnd]
  · rw [hsnd]; simp
  · intro s hs
    rw [hsnd] at hs
    simp only [List.mem_map] at hs
    obtain ⟨s0, hs0, heq⟩ := hs
    by_cases hcase : s0.sectionId = some id
    · rw [if_pos (by simp [hcase])] at heq
      rw [← heq]
      simp
    · rw [if_neg (by simp [hcase])] at heq
      rw [← heq]
      exact hcase
  · intro hnex
    have hany : st.sections.any (fun sec => sec.id == id) = false := by
      cases h : st.sections.any (fun sec => sec.id == id) with
      | false => rfl
      | true =>
        exfalso
        simp only [List.any_eq_true, beq_iff_eq] at h
        exact hnex h
    constructor
    · rw [hfst, hany]
      simp
    · rw [hsnd]
      apply List.filter_eq_self.mpr
      intro sec hm
      have hne : sec.id ≠ id := fun heq => hnex ⟨sec, hm, heq⟩
      simp [hne]
  · intro hall
    rw [hsnd]
    apply map_eq_self_of_fixes
    intro s hm
    rw [if_neg (by simp [hall s hm])]

/-- Witness for C6 (amended): deleting the existing section "X" gives
200, empties the section list and unassigns the student; deleting the
missing id "Y" gives 404 and, with no student carrying "Y", leaves the
students unchanged. -/
theorem deleteSection_behavior_witness :
    (deleteSectionHandler sectionStore "X").1 = 200
    ∧ ((deleteSectionHandler sectionStore "X").2).sections = []
    ∧ ((deleteSectionHandler sectionStore "X").2).students = [{ sampleStudent with sectionId := none }]
    ∧ (deleteSectionHandler danglingStore "Y").1 = 404
    ∧ ((deleteSectionHandler danglingStore "Y").2).students = danglingStore.students := by
  have h := deleteSection_behavior sectionStore "X"
  have h2 := deleteSection_behavior danglingStore "Y"
  refine ⟨h.1 ⟨sampleSection, by decide, by decide⟩, ?_, ?_, ?_, ?_⟩
  · rw [h.2.1]; decide
  · rw [h.2.2.1]; decide
  · exact (h2.2.2.2.2.2.1 (by decide)).1
  · exact h2.2.2.2.2.2.2 (by decide)

/-- Counterexample to C7 as stated: an admin account update to an
already-taken username answers 400 ("Username already taken"), not the
409 the claim requires. -/
theorem adminAccount_username_conflict_returns_400 :
    (adminAccountHandler accountStore (some "Bearer tok1") takenNameBody).1 = .badRequest "Username already taken"
    ∧ adminAccountStatus (adminAccountHandler accountStore (some "Bearer tok1") takenNameBody).1 = 400
    ∧ (400 : Nat) ≠ 409 := by
  refine ⟨by decide, by decide, by decide⟩

/-- C7 (amended): a student create with a duplicate studentId returns
409 and leaves the store unchanged; a section create with a duplicate
name gets no handler-level 409 — the UNIQUE constraint failure escapes as
a 500 with no row created; an admin account update to a taken username
returns 400, not 409, with no row modified. -/
theorem uniqueness_conflict_statuses (st : Store) :
    (∀ (b : StudentBody) (newId : String) (s0 : Student),
      truthy b.studentId = true → truthy b.firstName = true → truthy b.lastName = true →
      truthy b.course = true →
      getStudentByStudentId st (b.studentId.getD "") = some s0 →
      createStudentHandler st b newId = (.conflict, st)
      ∧ createStudentStatus (createStudentHandler st b newId).1 = 409)
    ∧ (∀ (b : SectionBody) (newId : String),
      truthy b.name = true →
      st.sections.any (fun x => x.name == b.name.getD "") = true →
      createSectionHandler st b newId = (.serverError, st)
      ∧ createSectionStatus (createSectionHandler st b newId).1 = 500
      ∧ createSectionStatus (createSectionHandler st b newId).1 ≠ 409)
    ∧ (∀ (ah : Option String) (b : AdminAccountBody) (t : String) (sess : Session) (admin other : AdminUser),
      extractToken ah = some t → storGetSession st t = some sess →
      getAdminById st sess.userId = some admin →
      truthy b.currentPassword = true →
      bcryptCompare (b.currentPassword.getD "") admin.password = true →
      truthy b.newUsername = true →
      ((b.newUsername.getD "") == admin.username) = false →
      getAdminByUsername st (b.newUsername.getD "") = some other →
      adminAccountHandler st ah b = (.badRequest "Username already taken", st)
      ∧ adminAccountStatus (adminAccountHandler st ah b).1 = 400) := by
  refine ⟨?_, ?_, ?_⟩
  · intro b newId s0 h1 h2 h3 h4 hdup
    have hres : createStudentHandler st b newId = (.conflict, st) := by
      simp only [createStudentHandler, h1, h2, h3, h4, hdup, Bool.not_true, Bool.or_self,
        Bool.false_or, ite_false]
      simp
    exact ⟨hres, by rw [hres]; rfl⟩
  · intro b newId hname hdup
    have hres : createSectionHandler st b newId = (.serverError, st) := by
      simp only [createSectionHandler, createSectionS, hname, Bool.not_true, ite_false]
      simp only [hdup, ite_true]
      simp
    have h500 : createSectionStatus (createSectionHandler st b newId).1 = 500 := by
      rw [hres]
      rfl
    refine ⟨hres, h500, by rw [h500]; decide⟩
  · intro ah b t sess admin other ht hsess hadmin hcp hbc hnu hdiff htaken
    have hres : adminAccountHandler st ah b = (.badRequest "Username already taken", st) := by
      simp only [adminAccountHandler, ht, hsess, hadmin, hcp, hbc, hnu, hdiff, htaken,
        Bool.not_true, Bool.not_false, Bool.and_true, Bool.true_and, ite_false, ite_true]
      simp
    exact ⟨hres, by rw [hres]; rfl⟩

/-- Witness for C7 (amended): concrete duplicate-studentId create (409,
store unchanged), duplicate-name section create (500, store unchanged),
and taken-username account update (400, store unchanged). -/
theorem uniqueness_conflict_witness :
    createStudentHandler sectionStore dupStudentBody "s9" = (.conflict, sectionStore)
    ∧ createSectionHandler sectionStore dupSectionBody "X2" = (.serverError, sectionStore)
    ∧ adminAccountHandler accountStore (some "Bearer tok1") takenNameBody
        = (.badRequest "Username already taken", accountStore) := by
  have h := uniqueness_conflict_statuses sectionStore
  have ha := uniqueness_conflict_statuses accountStore
  refine ⟨?_, ?_, ?_⟩
  · exact (h.1 dupStudentBody "s9" sampleStudent (by decide) (by decide) (by decide) (by decide) (by decide)).1
  · exact (h.2.1 dupSectionBody "X2" (by decide) (by decide)).1
  · exact (ha.2.2 (some "Bearer tok1") takenNameBody "tok1"
      { token := "tok1", userId := "a1", role := "admin", expiresAt := 1000 }
      seedAdmin otherAdmin (by decide) (by decide) (by decide) (by decide) (by decide)
      (by decide) (by decide) (by decide)).1

/-- Counterexample to C8 as stated: grade "9.99" parses to 9.99, which is
outside [1.0, 5.0], yet the create succeeds with 201 and stores the row —
no range validation exists. -/
theorem createGrade_accepts_out_of_range :
    (createGradeHandler emptyStore outOfRangeBody "g1").1 = .created (gradeOfBody outOfRangeBody "g1")
    ∧ (gradeOfBody outOfRangeBody "g1").grade = "9.99"
    ∧ createGradeStatus (createGradeHandler emptyStore outOfRangeBody "g1").1 = 201
    ∧ parseFloatQ "9.99" = some (999/100)
    ∧ ¬ ((999 : ℚ) / 100 ≤ 5)
    ∧ ((createGradeHandler emptyStore outOfRangeBody "g1").2).grades.length = 1 := by
  have hguard : (!(truthy outOfRangeBody.studentId) || !(truthy outOfRangeBody.subjectCode)
      || !(truthy outOfRangeBody.grade)) = false := by decide
  have hres : createGradeHandler emptyStore outOfRangeBody "g1"
      = (.created (gradeOfBody outOfRangeBody "g1"), createGradeS emptyStore (gradeOfBody outOfRangeBody "g1")) := by
    simp only [createGradeHandler, hguard]
    simp
  refine ⟨by rw [hres], rfl, by rw [hres]; rfl, ?_, by norm_num, by rw [hres]; rfl⟩
  · simp +decide [parseFloatQ, digitsToNat]
    norm_num

/-- C8 (amended): the grade endpoints perform no numeric validation on
the grade value.  A create succeeds whenever studentId, subjectCode and
grade are truthy, storing the raw grade string whatever its value, and is
rejected (400, store untouched) exactly when one of the three is falsy;
an update applies any supplied grade string unvalidated. -/
theorem grade_write_no_range_validation (st : Store) (b : GradeBody) (gid : String) :
    ((truthy b.studentId && truthy b.subjectCode && truthy b.grade) = true →
      createGradeHandler st b gid = (.created (gradeOfBody b gid), createGradeS st (gradeOfBody b gid))
      ∧ (gradeOfBody b gid).grade = b.grade.getD "")
    ∧ ((truthy b.studentId && truthy b.subjectCode && truthy b.grade) = false →
      createGradeHandler st b gid = (.badRequest, st))
    ∧ (∀ id g0, getGradeById st id = some g0 →
        (updateGradeHandler st id b).1 = .updated (applyGradeUpdate g0 (gradeUpdateOf b))
        ∧ (truthy b.grade = true → (applyGradeUpdate g0 (gradeUpdateOf b)).grade = b.grade.getD "")) := by
  have hg : (!(truthy b.studentId) || !(truthy b.subjectCode) || !(truthy b.grade))
      = !(truthy b.studentId && truthy b.subjectCode && truthy b.grade) := by
    cases truthy b.studentId <;> cases truthy b.subjectCode <;> cases truthy b.grade <;> rfl
  refine ⟨?_, ?_, ?_⟩
  · intro h
    constructor
    · simp only [createGradeHandler, hg, h]
      simp
    · rfl
  · intro h
    simp only [createGradeHandler, hg, h]
    simp
  · intro id g0 hg0
    simp only [getGradeById] at hg0
    constructor
    · simp only [updateGradeHandler, updateGradeS, hg0]
    · intro htg
      cases hbg : b.grade with
      | none => rw [hbg] at htg; simp [truthy] at htg
      | some s => simp [applyGradeUpdate, gradeUpdateOf, hbg]

/-- Witness for C8 (amended): grade "4.75" is stored verbatim; dropping
the grade field gives 400 and an untouched store. -/
theorem grade_write_no_range_validation_witness :
    createGradeHandler emptyStore rangeFreeBody "g1"
      = (.created (gradeOfBody rangeFreeBody "g1"), createGradeS emptyStore (gradeOfBody rangeFreeBody "g1"))
    ∧ (gradeOfBody rangeFreeBody "g1").grade = "4.75"
    ∧ createGradeHandler emptyStore { rangeFreeBody with grade := none } "g2" = (.badRequest, emptyStore) := by
  have h := grade_write_no_range_validation emptyStore rangeFreeBody "g1"
  have h2 := grade_write_no_range_validation emptyStore { rangeFreeBody with grade := none } "g2"
  exact ⟨(h.1 (by decide)).1, (h.1 (by decide)).2, h2.2.1 (by decide)⟩

/-- Counterexample to C9 as stated: a student assigned to section "X",
updated with a body carrying only `firstName`, loses the assignment —
the absent `sectionId` does not keep its stored value but is coerced to
null by `body.sectionId ?? null`. -/
theorem updateStudent_absent_sectionId_cleared :
    sampleStudent.sectionId = some "X"
    ∧ ((updateStudentHandler danglingStore "s1" nameOnlyBody).2).students
        = [{ sampleStudent with firstName := "Maria", sectionId := none }]
    ∧ (updateStudentHandler danglingStore "s1" nameOnlyBody).1
        = .updated (studentFieldsSansPw { sampleStudent with firstName := "Maria", sectionId := none }) := by
  refine ⟨by decide, by decide, by decide⟩

/-- C9 (amended): `PUT /api/admin/students/:id` is a partial field merge
for every plain field (absent keeps the stored value, present overwrites)
and for `password` (updated, hashed, only when truthy), but NOT for
`sectionId`: that column is always written with `body.sectionId ?? null`,
so an absent or null `sectionId` clears the stored assignment.  The row
id, studentId and role are never touched by this endpoint. -/
theorem updateStudent_partial_merge (st : Store) (id : String) (b : StudentPutBody) (s0 : Student)
    (h : getStudentById st id = some s0) :
    (updateStudentHandler st id b).1 = .updated (studentFieldsSansPw (applyStudentUpdate s0 (studentUpdateOf b)))
    ∧ (applyStudentUpdate s0 (studentUpdateOf b)).firstName = b.firstName.getD s0.firstName
    ∧ (applyStudentUpdate s0 (studentUpdateOf b)).lastName = b.lastName.getD s0.lastName
    ∧ (applyStudentUpdate s0 (studentUpdateOf b)).middleName = b.middleName.getD s0.middleName
    ∧ (applyStudentUpdate s0 (studentUpdateOf b)).suffix = b.suffix.getD s0.suffix
    ∧ (applyStudentUpdate s0 (studentUpdateOf b)).course = b.course.getD s0.course
    ∧ (applyStudentUpdate s0 (studentUpdateOf b)).yearLevel = b.yearLevel.getD s0.yearLevel
    ∧ (applyStudentUpdate s0 (studentUpdateOf b)).email = b.email.getD s0.email
    ∧ (applyStudentUpdate s0 (studentUpdateOf b)).contactNumber = b.contactNumber.getD s0.contactNumber
    ∧ (applyStudentUpdate s0 (studentUpdateOf b)).address = b.address.getD s0.address
    ∧ (applyStudentUpdate s0 (studentUpdateOf b)).dateOfBirth = b.dateOfBirth.getD s0.dateOfBirth
    ∧ (applyStudentUpdate s0 (studentUpdateOf b)).gender = b.gender.getD s0.gender
    ∧ (applyStudentUpdate s0 (studentUpdateOf b)).status = b.status.getD s0.status
    ∧ (applyStudentUpdate s0 (studentUpdateOf b)).sectionId = b.sectionId.getD none
    ∧ (applyStudentUpdate s0 (studentUpdateOf b)).password
        = (if truthy b.password then bcryptHash (b.password.getD "") else s0.password)
    ∧ (applyStudentUpdate s0 (studentUpdateOf b)).studentId = s0.studentId
    ∧ (applyStudentUpdate s0 (studentUpdateOf b)).id = s0.id
    ∧ (applyStudentUpdate s0 (studentUpdateOf b)).role = s0.role := by
  have hfind : st.students.find? (fun s => s.id == id) = some s0 := h
  refine ⟨?_, rfl, rfl, rfl, rfl, rfl, rfl, rfl, rfl, rfl, rfl, rfl, rfl, rfl, ?_, rfl, rfl, rfl⟩
  · simp only [updateStudentHandler, updateStudentS, hfind]
  · cases htp : truthy b.password <;> simp [applyStudentUpdate, studentUpdateOf, htp]

/-- Witness for C9 (amended): updating only firstName changes it to
"Maria", keeps the course, and clears the section assignment. -/
theorem updateStudent_partial_merge_witness :
    (updateStudentHandler danglingStore "s1" nameOnlyBody).1
      = .updated (studentFieldsSansPw (applyStudentUpdate sampleStudent (studentUpdateOf nameOnlyBody)))
    ∧ (applyStudentUpdate sampleStudent (studentUpdateOf nameOnlyBody)).firstName = "Maria"
    ∧ (applyStudentUpdate sampleStudent (studentUpdateOf nameOnlyBody)).course = sampleStudent.course
    ∧ (applyStudentUpdate sampleStudent (studentUpdateOf nameOnlyBody)).sectionId = none := by
  have h := updateStudent_partial_merge danglingStore "s1" nameOnlyBody sampleStudent (by decide)
  refine ⟨h.1, ?_, ?_, ?_⟩
  · rw [h.2.1]; decide
  · rw [h.2.2.2.2.2.1]; decide
  · rw [h.2.2.2.2.2.2.2.2.2.2.2.2.2.1]; decide

/-- C10: on `POST /api/admin/grades`, the stored units is 3 whenever
`Number(body.units)` is NaN (absent or non-numeric field) or 0, and the
numeric value otherwise; consequently a created grade never has 0
units. -/
theorem createGrade_units_default (st : Store) (b : GradeBody) (gid : String)
    (h1 : truthy b.studentId = true) (h2 : truthy b.subjectCode = true) (h3 : truthy b.grade = true) :
    (createGradeHandler st b gid).1 = .created (gradeOfBody b gid)
    ∧ (gradeOfBody b gid).units = unitsOf b.units
    ∧ (NumberQ b.units = none → (gradeOfBody b gid).units = 3)
    ∧ (NumberQ b.units = some 0 → (gradeOfBody b gid).units = 3)
    ∧ (∀ v, NumberQ b.units = some v → v ≠ 0 → (gradeOfBody b gid).units = v)
    ∧ (gradeOfBody b gid).units ≠ 0 := by
  refine ⟨?_, rfl, ?_, ?_, ?_, ?_⟩
  · simp [createGradeHandler, h1, h2, h3]
  · intro hn
    simp [gradeOfBody, unitsOf, hn]
  · intro h0
    simp [gradeOfBody, unitsOf, h0]
  · intro v hv hnz
    simp [gradeOfBody, unitsOf, hv, hnz]
  · cases hv : NumberQ b.units with
    | none => simp [gradeOfBody, unitsOf, hv]
    | some v =>
      by_cases hz : v = 0
      · simp [gradeOfBody, unitsOf, hv, hz]
      · simp [gradeOfBody, unitsOf, hv, hz]

/-- Witness for C10: units "0" and an absent units field both store 3;
units "5" stores 5. -/
theorem createGrade_units_default_witness :
    (createGradeHandler emptyStore zeroUnitsBody "g1").1 = .created (gradeOfBody zeroUnitsBody "g1")
    ∧ (gradeOfBody zeroUnitsBody "g1").units = 3
    ∧ (gradeOfBody fiveUnitsBody "g2").units = 5
    ∧ (gradeOfBody passBody "g3").units = 3 := by
  have hz := createGrade_units_default emptyStore zeroUnitsBody "g1" (by decide) (by decide) (by decide)
  have hf := createGrade_units_default emptyStore fiveUnitsBody "g2" (by decide) (by decide) (by decide)
  have hp := createGrade_units_default emptyStore passBody "g3" (by decide) (by decide) (by decide)
  refine ⟨hz.1, ?_, ?_, ?_⟩
  · apply hz.2.2.2.1
    simp +decide [NumberQ, trimChars, parseDecFull, digitsToNat, zeroUnitsBody]
  · apply hf.2.2.2.2.1
    · simp +decide [NumberQ, trimChars, parseDecFull, digitsToNat, fiveUnitsBody]
    · norm_num
  · apply hp.2.2.1
    simp [NumberQ, passBody]

end Zamboa
